import Mathlib

/-!
Shallow embedding of the pharmacy management application (src/app.py,
src/models.py) and verification of its specification.

Modelling conventions:
* SQLAlchemy rows become Lean structures; a column that is nullable, or that is
  filled from `request.form.get(...)` (which yields `None` when the field is
  missing), is an `Option String`.
* The database is a record of lists of rows; `db.session.add` + `commit`
  appends rows, `rollback` discards everything not yet committed.  SQLite
  assigns an integer primary key `max existing id + 1` on insert.
* Python `int(...)` and `datetime.strptime(..., "%Y-%m-%d")` are modelled as
  `Except`-valued parsers (`pyInt`, `pyStrptime`); the NOT NULL / UNIQUE
  constraints SQLite enforces at commit time are modelled by explicit
  insert-check functions.  Exceptions in a handler's `try` block thus become
  the `Except.error` branches, and each handler mirrors the source's
  `except` clause: roll back (keep only committed state) and flash the raw
  exception text.
* Floats in the two calculator endpoints are modelled as rationals; Python's
  `round(x, 2)` is round-half-to-even on `x * 100`.
* `current_user` is passed to each handler explicitly; `login_required` is
  assumed (all claims concern authenticated users).  `datetime.utcnow()` is an
  explicit `now` parameter.
-/

namespace PMS

/-- Row of the `user` table (src/models.py, class User). -/
structure User where
  id : Int
  username : String
  password : String
  role : String
deriving DecidableEq

/-- Result of a successful `datetime.strptime(s, "%Y-%m-%d")` call. -/
structure PyDate where
  year : Nat
  month : Nat
  day : Nat
deriving DecidableEq

/-- Row of the `patient` table (src/models.py, class Patient). -/
structure Patient where
  id : Int
  patient_id : Option String
  first_name : Option String
  last_name : Option String
  dob : PyDate
  gender : Option String
  blood_type : Option String
  allergies : Option String
  medical_history : Option String
  created_at : Int
  updated_at : Int
deriving DecidableEq

/-- Row of the `medication` table (src/models.py, class Medication). -/
structure Medication where
  id : Int
  name : Option String
  generic_name : Option String
  dosage_form : Option String
  strength : Option String
  manufacturer : Option String
  quantity : Int
  reorder_level : Int
  indications : Option String
  contraindications : Option String
  side_effects : Option String
deriving DecidableEq

/-- Row of the `prescription` table (src/models.py, class Prescription). -/
structure Prescription where
  id : Int
  patient_id : Int
  prescriber_id : Int
  date_prescribed : Int
  status : String
  instructions : Option String
deriving DecidableEq

/-- Row of the `prescription_item` table (src/models.py, class PrescriptionItem).
`dosage`, `frequency` and `duration` come from `request.form.getlist`, whose
elements are always strings, so they are plain `String`s here. -/
structure PrescriptionItem where
  id : Int
  prescription_id : Int
  medication_id : Int
  dosage : String
  frequency : String
  duration : String
deriving DecidableEq

/-- Row of the `clinical_note` table (src/models.py, class ClinicalNote). -/
structure ClinicalNote where
  id : Int
  patient_id : Int
  author_id : Int
  date : Int
  note_type : Option String
  content : Option String
deriving DecidableEq

/-- The committed state of the SQLite database: one list per table. -/
structure DB where
  users : List User
  patients : List Patient
  medications : List Medication
  prescriptions : List Prescription
  prescription_items : List PrescriptionItem
  clinical_notes : List ClinicalNote
deriving DecidableEq

/-- The freshly created database (`db.create_all()` on a new file). -/
def emptyDB : DB :=
  { users := [], patients := [], medications := [], prescriptions := [],
    prescription_items := [], clinical_notes := [] }

/-- A `flash(message, category)` call. -/
structure Flash where
  message : String
  category : String
deriving DecidableEq

/-- The HTTP response a handler produces: a redirect to a named endpoint, a
rendered template, or the 404 aborted by `get_or_404`. -/
inductive HResp where
  | redirect (endpoint : String)
  | render (template : String)
  | notFound
deriving DecidableEq

/-- Outcome of one request: the committed database afterwards, the response,
and the flashes emitted during the request. -/
structure HResult where
  db : DB
  resp : HResp
  flashes : List Flash
deriving DecidableEq

/-- SQLite integer primary key assignment: one more than the largest id. -/
def nextId (ids : List Int) : Int := ids.foldr max 0 + 1

/-- Decimal digit-string reader (empty or any non-digit yields `none`). -/
def digitsToNat : List Char → Option Nat
  | [] => none
  | cs => go cs 0
where
  go : List Char → Nat → Option Nat
    | [], acc => some acc
    | c :: rest, acc => if c.isDigit then go rest (acc * 10 + (c.toNat - 48)) else none

/-- Model of Python `int(s)` on a string that is always present
(`request.form.getlist` elements): an optional minus sign followed by
decimal digits; anything else raises `ValueError`. -/
def pyIntS (s : String) : Except String Int :=
  let parsed : Option Int :=
    match s.data with
    | '-' :: rest => (digitsToNat rest).map (fun n => -(n : Int))
    | cs => (digitsToNat cs).map (fun n => (n : Int))
  match parsed with
  | some n => .ok n
  | none => .error ("invalid literal for int() with base 10: " ++ s)

/-- Model of Python `int(x)` applied to a `request.form.get` result: `None`
raises `TypeError`, a non-numeric string raises `ValueError`. -/
def pyInt : Option String → Except String Int
  | none => .error "int() argument must be a string, a bytes-like object or a real number, not NoneType"
  | some s => pyIntS s

/-- Split a character list at every dash, for the `%Y-%m-%d` date format. -/
def splitOnDash (cs : List Char) : List (List Char) :=
  go cs []
where
  go : List Char → List Char → List (List Char)
    | [], acc => [acc.reverse]
    | c :: rest, acc => if c = '-' then acc.reverse :: go rest [] else go rest (c :: acc)

/-- Model of the library call `datetime.strptime(s, "%Y-%m-%d")`: `None`
raises `TypeError`; a string must be three dash-separated decimal fields with
a plausible month and day, otherwise `ValueError` is raised. -/
def pyStrptime : Option String → Except String PyDate
  | none => .error "strptime() argument 1 must be str, not None"
  | some s =>
    match (splitOnDash s.data).map digitsToNat with
    | [some y, some m, some d] =>
      if 1 ≤ m ∧ m ≤ 12 ∧ 1 ≤ d ∧ d ≤ 31 then .ok ⟨y, m, d⟩
      else .error ("time data " ++ s ++ " does not match format %Y-%m-%d")
    | _ => .error ("time data " ++ s ++ " does not match format %Y-%m-%d")

/-- The flash and redirect produced by the `teacher_required` decorator
(src/app.py lines 45-52) when the current user is not a teacher. -/
def teacherGateResult (db : DB) : HResult :=
  ⟨db, .redirect "dashboard",
    [⟨"You need to be a teacher to access this page.", "danger"⟩]⟩

/-- Form data of the add-patient page (each field via `request.form.get`). -/
structure PatientForm where
  patient_id : Option String
  first_name : Option String
  last_name : Option String
  dob : Option String
  gender : Option String
  blood_type : Option String
  allergies : Option String
  medical_history : Option String
deriving DecidableEq

/-- NOT NULL and UNIQUE constraints SQLite enforces when the new patient row
is committed (src/models.py lines 13-24). -/
def patientInsertCheck (db : DB) (p : Patient) : Except String Unit :=
  if p.patient_id = none then .error "NOT NULL constraint failed: patient.patient_id"
  else if p.first_name = none then .error "NOT NULL constraint failed: patient.first_name"
  else if p.last_name = none then .error "NOT NULL constraint failed: patient.last_name"
  else if p.gender = none then .error "NOT NULL constraint failed: patient.gender"
  else if db.patients.any (fun q => q.patient_id = p.patient_id) then
    .error "UNIQUE constraint failed: patient.patient_id"
  else .ok ()

/-- Embedding of `add_patient` (src/app.py lines 199-226), POST branch.
`teacher_required` runs first; inside the `try`, `strptime` may raise, then
the row is added and committed (where SQLite's constraints may raise); the
`except` clause rolls back and flashes the exception text, after which the
handler falls through to rendering the form again. -/
def add_patient (db : DB) (u : User) (now : Int) (form : PatientForm) : HResult :=
  if u.role ≠ "teacher" then teacherGateResult db
  else
    match pyStrptime form.dob with
    | .error e => ⟨db, .render "add_patient.html", [⟨"Error adding patient: " ++ e, "danger"⟩]⟩
    | .ok dob =>
      let p : Patient :=
        { id := nextId (db.patients.map Patient.id)
          patient_id := form.patient_id
          first_name := form.first_name
          last_name := form.last_name
          dob := dob
          gender := form.gender
          blood_type := form.blood_type
          allergies := form.allergies
          medical_history := form.medical_history
          created_at := now
          updated_at := now }
      match patientInsertCheck db p with
      | .error e => ⟨db, .render "add_patient.html", [⟨"Error adding patient: " ++ e, "danger"⟩]⟩
      | .ok _ =>
        ⟨{ db with patients := db.patients ++ [p] }, .redirect "patients",
          [⟨"Patient added successfully", "success"⟩]⟩

/-- Form data of the add-medication page. -/
structure MedicationForm where
  name : Option String
  generic_name : Option String
  dosage_form : Option String
  strength : Option String
  manufacturer : Option String
  quantity : Option String
  reorder_level : Option String
  indications : Option String
  contraindications : Option String
  side_effects : Option String
deriving DecidableEq

/-- NOT NULL constraint SQLite enforces when the new medication row is
committed (src/models.py line 28: `name` is the only non-nullable text
column). -/
def medicationInsertCheck (m : Medication) : Except String Unit :=
  if m.name = none then .error "NOT NULL constraint failed: medication.name"
  else .ok ()

/-- Embedding of `add_medication` (src/app.py lines 237-264), POST branch.
The two `int(...)` conversions are evaluated (quantity first) while building
the keyword arguments; the commit may raise the NOT NULL constraint. -/
def add_medication (db : DB) (u : User) (form : MedicationForm) : HResult :=
  if u.role ≠ "teacher" then teacherGateResult db
  else
    match pyInt form.quantity with
    | .error e => ⟨db, .render "add_medication.html", [⟨"Error adding medication: " ++ e, "danger"⟩]⟩
    | .ok q =>
      match pyInt form.reorder_level with
      | .error e => ⟨db, .render "add_medication.html", [⟨"Error adding medication: " ++ e, "danger"⟩]⟩
      | .ok r =>
        let m : Medication :=
          { id := nextId (db.medications.map Medication.id)
            name := form.name
            generic_name := form.generic_name
            dosage_form := form.dosage_form
            strength := form.strength
            manufacturer := form.manufacturer
            quantity := q
            reorder_level := r
            indications := form.indications
            contraindications := form.contraindications
            side_effects := form.side_effects }
        match medicationInsertCheck m with
        | .error e => ⟨db, .render "add_medication.html", [⟨"Error adding medication: " ++ e, "danger"⟩]⟩
        | .ok _ =>
          ⟨{ db with medications := db.medications ++ [m] }, .redirect "medications",
            [⟨"Medication added successfully", "success"⟩]⟩

/-- Form data of the create-prescription page; the four item columns come
from `request.form.getlist`, which always yields lists of strings. -/
structure RxForm where
  patient_id : Option String
  instructions : Option String
  medication_ids : List String
  dosages : List String
  frequencies : List String
  durations : List String
deriving DecidableEq

/-- Python `zip` over four lists: truncates to the shortest. -/
def zip4 {α β γ δ : Type} : List α → List β → List γ → List δ → List (α × β × γ × δ)
  | a :: as, b :: bs, c :: cs, d :: ds => (a, b, c, d) :: zip4 as bs cs ds
  | _, _, _, _ => []

/-- The item-insertion loop of `create_prescription` (src/app.py lines
289-297): for each zipped tuple, `int(med_id)` may raise; if any iteration
raises, none of the items reach the database (they were only pending in the
session and the `except` clause rolls them back).  On success the list of
rows added by the final commit is returned; ids are assigned in insertion
order starting at `firstId`. -/
def buildItems (rxId firstId : Int) :
    List (String × String × String × String) → Except String (List PrescriptionItem)
  | [] => .ok []
  | (mid, dos, freq, dur) :: rest =>
    match pyIntS mid with
    | .error e => .error e
    | .ok m =>
      match buildItems rxId (firstId + 1) rest with
      | .error e => .error e
      | .ok items =>
        .ok ({ id := firstId, prescription_id := rxId, medication_id := m,
               dosage := dos, frequency := freq, duration := dur } :: items)

/-- Embedding of `create_prescription` (src/app.py lines 267-308), POST
branch.  Any logged-in user may call it.  The prescription row is committed
first; the items are inserted and committed separately, so an exception in
the item loop (after the first commit) rolls back only the pending items and
the prescription row stays committed. -/
def create_prescription (db : DB) (u : User) (now : Int) (form : RxForm) : HResult :=
  match pyInt form.patient_id with
  | .error e =>
    ⟨db, .render "create_prescription.html", [⟨"Error creating prescription: " ++ e, "danger"⟩]⟩
  | .ok pid =>
    let rx : Prescription :=
      { id := nextId (db.prescriptions.map Prescription.id)
        patient_id := pid
        prescriber_id := u.id
        date_prescribed := now
        status := if u.role = "student" then "pending" else "approved"
        instructions := form.instructions }
    let db1 : DB := { db with prescriptions := db.prescriptions ++ [rx] }
    match buildItems rx.id (nextId (db.prescription_items.map PrescriptionItem.id))
        (zip4 form.medication_ids form.dosages form.frequencies form.durations) with
    | .error e =>
      ⟨db1, .render "create_prescription.html", [⟨"Error creating prescription: " ++ e, "danger"⟩]⟩
    | .ok items =>
      ⟨{ db1 with prescription_items := db1.prescription_items ++ items },
        .redirect "prescriptions", [⟨"Prescription created successfully", "success"⟩]⟩

/-- Embedding of `approve_prescription` (src/app.py lines 310-318):
`teacher_required` first, then `get_or_404`, then the status is set to
"approved" unconditionally and committed. -/
def approve_prescription (db : DB) (u : User) (id : Int) : HResult :=
  if u.role ≠ "teacher" then teacherGateResult db
  else if db.prescriptions.any (fun p => p.id = id) then
    ⟨{ db with prescriptions :=
        db.prescriptions.map (fun p => if p.id = id then { p with status := "approved" } else p) },
      .redirect "prescriptions", [⟨"Prescription approved", "success"⟩]⟩
  else ⟨db, .notFound, []⟩

/-- Form data of the add-note form. -/
structure NoteForm where
  note_type : Option String
  content : Option String
deriving DecidableEq

/-- NOT NULL constraint SQLite enforces when the new clinical note is
committed (src/models.py line 65: `content` is non-nullable). -/
def noteInsertCheck (n : ClinicalNote) : Except String Unit :=
  if n.content = none then .error "NOT NULL constraint failed: clinical_note.content"
  else .ok ()

/-- Embedding of `add_clinical_note` (src/app.py lines 321-340): any
logged-in user; the commit may raise the NOT NULL constraint, in which case
the session is rolled back and the error flashed; either way the handler
redirects to the patient view. -/
def add_clinical_note (db : DB) (u : User) (now : Int) (patient_id : Int)
    (form : NoteForm) : HResult :=
  let n : ClinicalNote :=
    { id := nextId (db.clinical_notes.map ClinicalNote.id)
      patient_id := patient_id
      author_id := u.id
      date := now
      note_type := form.note_type
      content := form.content }
  match noteInsertCheck n with
  | .error e => ⟨db, .redirect "view_patient", [⟨"Error adding note: " ++ e, "danger"⟩]⟩
  | .ok _ =>
    ⟨{ db with clinical_notes := db.clinical_notes ++ [n] }, .redirect "view_patient",
      [⟨"Clinical note added successfully", "success"⟩]⟩

/-- The dashboard statistics (src/app.py lines 62-67). -/
structure Stats where
  patient_count : Nat
  medication_count : Nat
  active_prescriptions : Nat
  low_stock : Nat
deriving DecidableEq

/-- Embedding of the `stats` dictionary of `dashboard` (src/app.py lines
62-67); note the low-stock filter is `quantity <= reorder_level`. -/
def dashboard_stats (db : DB) : Stats :=
  { patient_count := db.patients.length
    medication_count := db.medications.length
    active_prescriptions := (db.prescriptions.filter (fun p => p.status = "approved")).length
    low_stock := (db.medications.filter (fun m => m.quantity ≤ m.reorder_level)).length }

/-- The `low_stock` query of the `medications` view (src/app.py line 126):
`Medication.query.filter(Medication.quantity <= Medication.reorder_level)`. -/
def medications_low_stock (db : DB) : List Medication :=
  db.medications.filter (fun m => m.quantity ≤ m.reorder_level)

/-- Embedding of the `prescriptions` listing (src/app.py lines 129-136):
teachers get every prescription, everyone else only rows with their own
`prescriber_id`; both ordered by `date_prescribed` descending. -/
def prescriptions_view (db : DB) (u : User) : List Prescription :=
  if u.role = "teacher" then
    db.prescriptions.mergeSort (fun a b => decide (b.date_prescribed ≤ a.date_prescribed))
  else
    (db.prescriptions.filter (fun p => p.prescriber_id = u.id)).mergeSort
      (fun a b => decide (b.date_prescribed ≤ a.date_prescribed))

/-- Python `round` is round-half-to-even on the nearest integers. -/
def roundHalfEven (x : ℚ) : ℤ :=
  let n : ℤ := ⌊x⌋
  let r : ℚ := x - n
  if r < 1/2 then n
  else if 1/2 < r then n + 1
  else if 2 ∣ n then n else n + 1

/-- Model of Python `round(x, 2)` on the rational model of floats. -/
def pyRound2 (x : ℚ) : ℚ := (roundHalfEven (x * 100) : ℚ) / 100

/-- Response of the BMI endpoint: either the success JSON (`result`,
`category`, `status:'success'`) or the error envelope. -/
inductive BmiResp where
  | success (result : ℚ) (category : String)
  | error (message : String)
deriving DecidableEq

/-- The category string of a successful BMI response, if any. -/
def BmiResp.categoryOf : BmiResp → Option String
  | .success _ c => some c
  | .error _ => none

/-- Embedding of `calculate_bmi` (src/app.py lines 144-171) on
already-converted numeric inputs (floats modelled as rationals).  A zero
height raises `ZeroDivisionError`, caught by the generic `except`. -/
def calculate_bmi (weight height : ℚ) : BmiResp :=
  if height = 0 then .error "float division by zero"
  else
    let bmi := weight / ((height / 100) ^ 2)
    let category :=
      if bmi < 18.5 then "Underweight"
      else if 18.5 ≤ bmi ∧ bmi < 25 then "Normal weight"
      else if 25 ≤ bmi ∧ bmi < 30 then "Overweight"
      else "Obese"
    .success (pyRound2 bmi) category

/-- Response of the creatinine-clearance endpoint. -/
inductive CcrResp where
  | success (result : ℚ)
  | error (message : String)
deriving DecidableEq

/-- Embedding of `calculate_ccr` (src/app.py lines 173-196) on
already-converted inputs.  A zero serum creatinine raises
`ZeroDivisionError`.  Note the branch is on `gender == 'male'`: every other
gender value gets the 0.85 multiplier. -/
def calculate_ccr (age : Int) (weight scr : ℚ) (gender : String) : CcrResp :=
  if scr = 0 then .error "float division by zero"
  else if gender = "male" then
    .success (pyRound2 (((140 - (age : ℚ)) * weight) / (72 * scr)))
  else
    .success (pyRound2 (0.85 * ((140 - (age : ℚ)) * weight) / (72 * scr)))

/-- One database-writing request, with its acting authenticated user and (for
handlers that stamp `datetime.utcnow()`) the current time. -/
inductive Op where
  | addPatient (u : User) (now : Int) (form : PatientForm)
  | addMedication (u : User) (form : MedicationForm)
  | createRx (u : User) (now : Int) (form : RxForm)
  | approveRx (u : User) (id : Int)
  | addNote (u : User) (now : Int) (patient_id : Int) (form : NoteForm)

/-- Dispatch one request to its handler. -/
def applyOp (db : DB) : Op → HResult
  | .addPatient u now form => add_patient db u now form
  | .addMedication u form => add_medication db u form
  | .createRx u now form => create_prescription db u now form
  | .approveRx u id => approve_prescription db u id
  | .addNote u now pid form => add_clinical_note db u now pid form

/-- Database states reachable from the fresh database by the implemented
write operations. -/
inductive Reachable : DB → Prop
  | empty : Reachable emptyDB
  | step (db : DB) (op : Op) : Reachable db → Reachable (applyOp db op).db

/-- Every prescription status is drawn from pending/approved (the invariant
maintained by all write operations). -/
def statusOK (db : DB) : Prop :=
  ∀ p ∈ db.prescriptions, p.status = "pending" ∨ p.status = "approved"

/-- A concrete teacher account, for witnesses. -/
def teacherW : User := { id := 2, username := "doc", password := "pw", role := "teacher" }

/-- A concrete student account, for witnesses. -/
def studentW : User := { id := 1, username := "stu", password := "pw", role := "student" }

/-- A medication whose quantity is exactly its reorder level. -/
def medBoundary : Medication :=
  { id := 1, name := some "Amoxicillin", generic_name := none, dosage_form := none,
    strength := none, manufacturer := none, quantity := 10, reorder_level := 10,
    indications := none, contraindications := none, side_effects := none }

/-- A database holding only `medBoundary`. -/
def dbBoundary : DB := { emptyDB with medications := [medBoundary] }

/-- A prescription authored by user 1, for witnesses. -/
def rxMine : Prescription :=
  { id := 1, patient_id := 1, prescriber_id := 1, date_prescribed := 0,
    status := "pending", instructions := none }

/-- A prescription authored by user 2, for witnesses. -/
def rxOther : Prescription :=
  { id := 2, patient_id := 1, prescriber_id := 2, date_prescribed := 1,
    status := "approved", instructions := none }

/-- A database with one prescription each by users 1 and 2. -/
def dbTwoRx : DB := { emptyDB with prescriptions := [rxMine, rxOther] }

/-- A database holding one pending prescription. -/
def dbPend : DB := { emptyDB with prescriptions := [rxMine] }

/-- A well-formed add-patient form. -/
def pfW : PatientForm :=
  { patient_id := some "P1", first_name := some "Ann", last_name := some "Lee",
    dob := some "2000-01-01", gender := some "F", blood_type := none,
    allergies := none, medical_history := none }

/-- A well-formed add-medication form. -/
def mfW : MedicationForm :=
  { name := some "Ibuprofen", generic_name := none, dosage_form := none, strength := none,
    manufacturer := none, quantity := some "5", reorder_level := some "10",
    indications := none, contraindications := none, side_effects := none }

/-- A well-formed create-prescription form with one item. -/
def rxFormW : RxForm :=
  { patient_id := some "1", instructions := some "after meals",
    medication_ids := ["1"], dosages := ["500mg"], frequencies := ["bid"],
    durations := ["7 days"] }

/-- The prescription row that `create_prescription` inserts for `rxFormW`
when user 1 (a student) submits it at time 5 against the fresh database. -/
def rxNewW : Prescription :=
  { id := 1, patient_id := 1, prescriber_id := 1, date_prescribed := 5,
    status := "pending", instructions := some "after meals" }

/-- A create-prescription form whose only item has a non-numeric
`medication_id`, so `int(med_id)` raises after the first commit. -/
def rxFormBadItem : RxForm :=
  { patient_id := some "1", instructions := some "take daily",
    medication_ids := ["oops"], dosages := ["500mg"], frequencies := ["bid"],
    durations := ["7 days"] }

/-- An add-patient form with no date of birth (`strptime` raises). -/
def pfBad : PatientForm :=
  { patient_id := some "P2", first_name := some "Bo", last_name := some "Ada",
    dob := none, gender := some "M", blood_type := none, allergies := none,
    medical_history := none }

/-- An add-medication form with a non-numeric quantity (`int` raises). -/
def mfBad : MedicationForm :=
  { name := some "Aspirin", generic_name := none, dosage_form := none, strength := none,
    manufacturer := none, quantity := some "abc", reorder_level := some "10",
    indications := none, contraindications := none, side_effects := none }

/-- A note form with no content (NOT NULL raises at commit). -/
def nfBad : NoteForm := { note_type := some "progress", content := none }

/-- Evaluation rule for `pyRound2` when the fractional part of `x * 100` is
below one half. -/
theorem pyRound2_eq_down (x : ℚ) (n : ℤ) (hn : ⌊x * 100⌋ = n) (hlt : x * 100 - n < 1/2) :
    pyRound2 x = (n : ℚ) / 100 := by
  simp only [pyRound2, roundHalfEven]
  rw [hn, if_pos hlt]

/-- Evaluation rule for `pyRound2` when the fractional part of `x * 100` is
above one half. -/
theorem pyRound2_eq_up (x : ℚ) (n : ℤ) (hn : ⌊x * 100⌋ = n) (hgt : 1/2 < x * 100 - n) :
    pyRound2 x = ((n : ℚ) + 1) / 100 := by
  simp only [pyRound2, roundHalfEven]
  rw [hn, if_neg (by linarith), if_pos hgt]
  push_cast
  ring

/-- Whatever branch `create_prescription` takes, the prescriptions table is
either unchanged (the `int(patient_id)` conversion raised before the first
commit) or extended by exactly the one new row, whose status is computed from
the current user role. -/
theorem create_prescriptions_shape (db : DB) (u : User) (now : Int) (form : RxForm) :
    (create_prescription db u now form).db.prescriptions = db.prescriptions
    ∨ ∃ pid, (create_prescription db u now form).db.prescriptions
        = db.prescriptions ++
          [{ id := nextId (db.prescriptions.map Prescription.id), patient_id := pid,
             prescriber_id := u.id, date_prescribed := now,
             status := if u.role = "student" then "pending" else "approved",
             instructions := form.instructions }] := by
  unfold create_prescription
  cases hp : pyInt form.patient_id with
  | error e => exact Or.inl rfl
  | ok pid =>
    dsimp only
    split
    · exact Or.inr ⟨pid, rfl⟩
    · exact Or.inr ⟨pid, rfl⟩

/-- `add_patient` never touches the prescriptions table. -/
theorem add_patient_prescriptions_eq (db : DB) (u : User) (now : Int) (f : PatientForm) :
    (add_patient db u now f).db.prescriptions = db.prescriptions := by
  unfold add_patient
  split
  · rfl
  · split
    · rfl
    · dsimp only
      split <;> rfl

/-- `add_medication` never touches the prescriptions table. -/
theorem add_medication_prescriptions_eq (db : DB) (u : User) (f : MedicationForm) :
    (add_medication db u f).db.prescriptions = db.prescriptions := by
  unfold add_medication
  split
  · rfl
  · split
    · rfl
    · split
      · rfl
      · dsimp only
        split <;> rfl

/-- `add_clinical_note` never touches the prescriptions table. -/
theorem add_clinical_note_prescriptions_eq (db : DB) (u : User) (now : Int) (pid : Int)
    (f : NoteForm) :
    (add_clinical_note db u now pid f).db.prescriptions = db.prescriptions := by
  unfold add_clinical_note
  dsimp only
  split <;> rfl

/-- `approve_prescription` preserves the status invariant. -/
theorem approve_statusOK (db : DB) (u : User) (id : Int) (h : statusOK db) :
    statusOK (approve_prescription db u id).db := by
  unfold approve_prescription
  split
  · exact h
  · split
    · intro p hp
      simp only [List.mem_map] at hp
      obtain ⟨q, hq, rfl⟩ := hp
      by_cases hid : q.id = id
      · rw [if_pos hid]
        exact Or.inr rfl
      · rw [if_neg hid]
        exact h q hq
    · exact h

/-- `create_prescription` preserves the status invariant. -/
theorem create_statusOK (db : DB) (u : User) (now : Int) (f : RxForm) (h : statusOK db) :
    statusOK (create_prescription db u now f).db := by
  rcases create_prescriptions_shape db u now f with hs | ⟨pid, hs⟩
  · intro p hp
    rw [hs] at hp
    exact h p hp
  · intro p hp
    rw [hs] at hp
    rcases List.mem_append.mp hp with hm | hm
    · exact h p hm
    · rw [List.mem_singleton.mp hm]
      by_cases hr : u.role = "student"
      · rw [if_pos hr]
        exact Or.inl rfl
      · rw [if_neg hr]
        exact Or.inr rfl

/-- Every implemented write operation preserves the status invariant. -/
theorem applyOp_statusOK (db : DB) (op : Op) (h : statusOK db) :
    statusOK (applyOp db op).db := by
  cases op with
  | addPatient u now f =>
    intro p hp
    rw [show (applyOp db (Op.addPatient u now f)).db.prescriptions = db.prescriptions from add_patient_prescriptions_eq db u now f] at hp
    exact h p hp
  | addMedication u f =>
    intro p hp
    rw [show (applyOp db (Op.addMedication u f)).db.prescriptions = db.prescriptions from add_medication_prescriptions_eq db u f] at hp
    exact h p hp
  | createRx u now f => exact create_statusOK db u now f h
  | approveRx u id => exact approve_statusOK db u id h
  | addNote u now pid f =>
    intro p hp
    rw [show (applyOp db (Op.addNote u now pid f)).db.prescriptions = db.prescriptions from add_clinical_note_prescriptions_eq db u now pid f] at hp
    exact h p hp

/-- The status invariant holds in every reachable database. -/
theorem reachable_statusOK (db : DB) (h : Reachable db) : statusOK db := by
  induction h with
  | empty => intro p hp; exact absurd hp (List.not_mem_nil p)
  | step db op hdb ih => exact applyOp_statusOK db op ih

/-- C1: any row the create-prescription request adds to the prescriptions
table gets its status from the prescriber role alone: "pending" for a
student prescriber and "approved" for a teacher prescriber. -/
theorem create_status_by_role (db : DB) (u : User) (now : Int) (form : RxForm)
    (p : Prescription) (hp : p ∈ (create_prescription db u now form).db.prescriptions)
    (hnew : p ∉ db.prescriptions) :
    (u.role = "student" → p.status = "pending")
    ∧ (u.role = "teacher" → p.status = "approved") := by
  rcases create_prescriptions_shape db u now form with hs | ⟨pid, hs⟩
  · rw [hs] at hp
    exact absurd hp hnew
  · rw [hs] at hp
    rcases List.mem_append.mp hp with h | h
    · exact absurd h hnew
    · have hps : p.status = (if u.role = "student" then "pending" else "approved") := by
        rw [List.mem_singleton.mp h]
      constructor
      · intro h1
        rw [hps, if_pos h1]
      · intro h1
        rw [hps, if_neg (by rw [h1]; decide)]

/-- Witness for C1: a student submitting `rxFormW` against the fresh database
inserts exactly `rxNewW`, whose status is "pending". -/
theorem create_status_by_role_witness : rxNewW.status = "pending" :=
  (create_status_by_role emptyDB studentW 5 rxFormW rxNewW (by decide) (by decide)).1 rfl

/-- C2: invoked by a teacher, `approve_prescription` sets the status of the
targeted prescription to "approved" whatever it was before, and it is
idempotent: a second approve leaves the database exactly as after the
first. -/
theorem approve_sets_approved (db : DB) (u : User) (id : Int) (hu : u.role = "teacher") :
    (∀ p ∈ (approve_prescription db u id).db.prescriptions, p.id = id → p.status = "approved")
    ∧ (approve_prescription (approve_prescription db u id).db u id).db
        = (approve_prescription db u id).db := by
  have hgate : ¬ (u.role ≠ "teacher") := fun hc => hc hu
  have hfun : ∀ q : Prescription, ((if q.id = id then { q with status := "approved" } else q) : Prescription).id = q.id := by
    intro q
    by_cases h : q.id = id <;> simp [h]
  by_cases hex : db.prescriptions.any (fun p => p.id = id) = true
  · have hres : (approve_prescription db u id).db = { db with prescriptions := db.prescriptions.map (fun p => if p.id = id then { p with status := "approved" } else p) } := by
      unfold approve_prescription
      rw [if_neg hgate, if_pos hex]
    constructor
    · intro p hp hid
      rw [hres] at hp
      simp only [List.mem_map] at hp
      obtain ⟨q, hq, rfl⟩ := hp
      by_cases h : q.id = id
      · rw [if_pos h]
      · rw [if_neg h] at hid ⊢
        exact absurd hid h
    · have hany2 : ((db.prescriptions.map (fun p => if p.id = id then { p with status := "approved" } else p)).any (fun p => p.id = id)) = true := by
        rw [List.any_map]
        have hcmp : ((fun p : Prescription => decide (p.id = id)) ∘ (fun p : Prescription => if p.id = id then { p with status := "approved" } else p)) = (fun p : Prescription => decide (p.id = id)) := by
          funext q
          simp only [Function.comp_apply, hfun q]
        rw [hcmp]
        exact hex
      have hmm : (db.prescriptions.map (fun p => if p.id = id then { p with status := "approved" } else p)).map (fun p => if p.id = id then { p with status := "approved" } else p) = db.prescriptions.map (fun p => if p.id = id then { p with status := "approved" } else p) := by
        rw [List.map_map]
        congr 1
        funext q
        by_cases h : q.id = id <;> simp [h]
      rw [hres]
      unfold approve_prescription
      rw [if_neg hgate]
      dsimp only
      rw [if_pos hany2]
      dsimp only
      rw [hmm]
  · have hres : (approve_prescription db u id).db = db := by
      unfold approve_prescription
      rw [if_neg hgate, if_neg hex]
    constructor
    · intro p hp hid
      rw [hres] at hp
      exact absurd (List.any_eq_true.mpr ⟨p, hp, by simp [hid]⟩) hex
    · rw [hres]
      exact hres

/-- Witness for C2, on a database with one pending prescription. -/
theorem approve_sets_approved_witness :
    (∀ p ∈ (approve_prescription dbPend teacherW 1).db.prescriptions,
      p.id = 1 → p.status = "approved")
    ∧ (approve_prescription (approve_prescription dbPend teacherW 1).db teacherW 1).db
        = (approve_prescription dbPend teacherW 1).db :=
  approve_sets_approved dbPend teacherW 1 rfl

/-- C3: in every database reachable from the fresh one by the implemented
write operations, every prescription status is "pending" or "approved"; in
particular no row is ever "denied" or "dispensed". -/
theorem reachable_no_denied_dispensed (db : DB) (h : Reachable db) :
    ∀ p ∈ db.prescriptions,
      (p.status = "pending" ∨ p.status = "approved")
      ∧ p.status ≠ "denied" ∧ p.status ≠ "dispensed" := by
  intro p hp
  have hs := reachable_statusOK db h p hp
  refine ⟨hs, ?_, ?_⟩ <;> rcases hs with h1 | h1 <;> rw [h1] <;> decide

/-- Witness for C3: the database reached by one student create request
contains `rxNewW`, and its status is within the invariant. -/
theorem reachable_no_denied_dispensed_witness :
    (rxNewW.status = "pending" ∨ rxNewW.status = "approved")
    ∧ rxNewW.status ≠ "denied" ∧ rxNewW.status ≠ "dispensed" :=
  reachable_no_denied_dispensed _
    (Reachable.step emptyDB (Op.createRx studentW 5 rxFormW) Reachable.empty)
    rxNewW (by decide)

/-- C4 counterexample: a create-prescription request whose item list fails
the `int(med_id)` conversion raises after the first commit; the handler
flashes the raw exception text, yet the database is NOT unchanged: the
prescription row from the first commit survives the rollback. -/
theorem create_commit_then_fail_cex :
    (create_prescription emptyDB teacherW 3 rxFormBadItem).flashes
      = [⟨"Error creating prescription: invalid literal for int() with base 10: oops", "danger"⟩]
    ∧ (create_prescription emptyDB teacherW 3 rxFormBadItem).db ≠ emptyDB := by
  decide

/-- C4 amended: for `add_patient`, `add_medication` and `add_clinical_note`
an exception rolls the database back unchanged and flashes the raw exception
text; for `create_prescription` an exception likewise surfaces the raw text,
but the rollback only discards uncommitted work, so either the database is
unchanged (the exception preceded the first commit) or it has gained exactly
the committed prescription row. -/
theorem write_rollback_amended (db : DB) (u : User) (now : Int) (pf : PatientForm)
    (mf : MedicationForm) (pid : Int) (nf : NoteForm) (rf : RxForm)
    (hu : u.role = "teacher") :
    ((∃ e, (add_patient db u now pf).flashes = [⟨"Error adding patient: " ++ e, "danger"⟩]
        ∧ (add_patient db u now pf).db = db)
      ∨ (add_patient db u now pf).flashes = [⟨"Patient added successfully", "success"⟩])
    ∧ ((∃ e, (add_medication db u mf).flashes = [⟨"Error adding medication: " ++ e, "danger"⟩]
        ∧ (add_medication db u mf).db = db)
      ∨ (add_medication db u mf).flashes = [⟨"Medication added successfully", "success"⟩])
    ∧ ((∃ e, (add_clinical_note db u now pid nf).flashes = [⟨"Error adding note: " ++ e, "danger"⟩]
        ∧ (add_clinical_note db u now pid nf).db = db)
      ∨ (add_clinical_note db u now pid nf).flashes = [⟨"Clinical note added successfully", "success"⟩])
    ∧ ((∃ e, (create_prescription db u now rf).flashes = [⟨"Error creating prescription: " ++ e, "danger"⟩]
        ∧ ((create_prescription db u now rf).db = db
          ∨ ∃ rx, (create_prescription db u now rf).db
              = { db with prescriptions := db.prescriptions ++ [rx] }))
      ∨ (create_prescription db u now rf).flashes = [⟨"Prescription created successfully", "success"⟩]) := by
  have hgate : ¬ (u.role ≠ "teacher") := fun hc => hc hu
  refine ⟨?_, ?_, ?_, ?_⟩
  · cases hs : pyStrptime pf.dob with
    | error e =>
      left
      refine ⟨e, ?_, ?_⟩ <;> unfold add_patient <;> rw [if_neg hgate, hs]
    | ok d =>
      cases hc : patientInsertCheck db { id := nextId (db.patients.map Patient.id), patient_id := pf.patient_id, first_name := pf.first_name, last_name := pf.last_name, dob := d, gender := pf.gender, blood_type := pf.blood_type, allergies := pf.allergies, medical_history := pf.medical_history, created_at := now, updated_at := now } with
      | error e =>
        left
        refine ⟨e, ?_, ?_⟩ <;> unfold add_patient <;> rw [if_neg hgate, hs] <;> dsimp only <;>
          rw [hc]
      | ok un =>
        right
        unfold add_patient
        rw [if_neg hgate, hs]
        dsimp only
        rw [hc]
  · cases hq : pyInt mf.quantity with
    | error e =>
      left
      refine ⟨e, ?_, ?_⟩ <;> unfold add_medication <;> rw [if_neg hgate, hq]
    | ok q =>
      cases hr : pyInt mf.reorder_level with
      | error e =>
        left
        refine ⟨e, ?_, ?_⟩ <;> unfold add_medication <;> rw [if_neg hgate, hq, hr]
      | ok r =>
        cases hc : medicationInsertCheck { id := nextId (db.medications.map Medication.id), name := mf.name, generic_name := mf.generic_name, dosage_form := mf.dosage_form, strength := mf.strength, manufacturer := mf.manufacturer, quantity := q, reorder_level := r, indications := mf.indications, contraindications := mf.contraindications, side_effects := mf.side_effects } with
        | error e =>
          left
          refine ⟨e, ?_, ?_⟩ <;> unfold add_medication <;> rw [if_neg hgate, hq, hr] <;>
            dsimp only <;> rw [hc]
        | ok un =>
          right
          unfold add_medication
          rw [if_neg hgate, hq, hr]
          dsimp only
          rw [hc]
  · cases hc : noteInsertCheck { id := nextId (db.clinical_notes.map ClinicalNote.id), patient_id := pid, author_id := u.id, date := now, note_type := nf.note_type, content := nf.content } with
    | error e =>
      left
      refine ⟨e, ?_, ?_⟩ <;> unfold add_clinical_note <;> dsimp only <;> rw [hc]
    | ok un =>
      right
      unfold add_clinical_note
      dsimp only
      rw [hc]
  · cases hp2 : pyInt rf.patient_id with
    | error e =>
      left
      refine ⟨e, ?_, Or.inl ?_⟩ <;> unfold create_prescription <;> rw [hp2]
    | ok pidv =>
      cases hb : buildItems (nextId (db.prescriptions.map Prescription.id)) (nextId (db.prescription_items.map PrescriptionItem.id)) (zip4 rf.medication_ids rf.dosages rf.frequencies rf.durations) with
      | error e =>
        left
        refine ⟨e, ?_, Or.inr ⟨{ id := nextId (db.prescriptions.map Prescription.id), patient_id := pidv, prescriber_id := u.id, date_prescribed := now, status := if u.role = "student" then "pending" else "approved", instructions := rf.instructions }, ?_⟩⟩ <;>
          unfold create_prescription <;> rw [hp2] <;> dsimp only <;> rw [hb]
      | ok items =>
        right
        unfold create_prescription
        rw [hp2]
        dsimp only
        rw [hb]

/-- Witness for C4, exercising each handler on a failing form. -/
theorem write_rollback_amended_witness :
    ((∃ e, (add_patient emptyDB teacherW 7 pfBad).flashes = [⟨"Error adding patient: " ++ e, "danger"⟩]
        ∧ (add_patient emptyDB teacherW 7 pfBad).db = emptyDB)
      ∨ (add_patient emptyDB teacherW 7 pfBad).flashes = [⟨"Patient added successfully", "success"⟩])
    ∧ ((∃ e, (add_medication emptyDB teacherW mfBad).flashes = [⟨"Error adding medication: " ++ e, "danger"⟩]
        ∧ (add_medication emptyDB teacherW mfBad).db = emptyDB)
      ∨ (add_medication emptyDB teacherW mfBad).flashes = [⟨"Medication added successfully", "success"⟩])
    ∧ ((∃ e, (add_clinical_note emptyDB teacherW 7 1 nfBad).flashes = [⟨"Error adding note: " ++ e, "danger"⟩]
        ∧ (add_clinical_note emptyDB teacherW 7 1 nfBad).db = emptyDB)
      ∨ (add_clinical_note emptyDB teacherW 7 1 nfBad).flashes = [⟨"Clinical note added successfully", "success"⟩])
    ∧ ((∃ e, (create_prescription emptyDB teacherW 7 rxFormBadItem).flashes = [⟨"Error creating prescription: " ++ e, "danger"⟩]
        ∧ ((create_prescription emptyDB teacherW 7 rxFormBadItem).db = emptyDB
          ∨ ∃ rx, (create_prescription emptyDB teacherW 7 rxFormBadItem).db
              = { emptyDB with prescriptions := emptyDB.prescriptions ++ [rx] }))
      ∨ (create_prescription emptyDB teacherW 7 rxFormBadItem).flashes = [⟨"Prescription created successfully", "success"⟩]) :=
  write_rollback_amended emptyDB teacherW 7 pfBad mfBad 1 nfBad rxFormBadItem rfl

/-- C5: the BMI endpoint on weight 70 kg and height 175 cm returns result
22.86 and category "Normal weight" in a success response. -/
theorem bmi_70_175 : calculate_bmi 70 175 = .success 22.86 "Normal weight" := by
  have h1 : (70 : ℚ) / ((175 / 100) ^ 2) = 160 / 7 := by norm_num
  have hfl : ⌊(160 / 7 : ℚ) * 100⌋ = 2285 := by
    rw [Int.floor_eq_iff]; norm_num
  simp only [calculate_bmi, h1]
  norm_num
  rw [pyRound2_eq_up (160/7) 2285 hfl (by norm_num)]
  norm_num

/-- C6: for a valid input (gender "male" or "female", nonzero serum
creatinine) the creatinine-clearance result is the Cockcroft-Gault formula
((140 - age) * weight) / (72 * scr), multiplied by 0.85 exactly when the
patient is female, rounded to two decimals. -/
theorem ccr_cockcroft_gault (age : Int) (weight scr : ℚ) (gender : String)
    (hg : gender = "male" ∨ gender = "female") (hs : scr ≠ 0) :
    calculate_ccr age weight scr gender =
      .success (pyRound2 ((if gender = "female" then (0.85 : ℚ) else 1) *
        ((140 - (age : ℚ)) * weight) / (72 * scr))) := by
  rcases hg with hg | hg <;> subst hg <;> simp only [calculate_ccr, if_neg hs] <;>
    simp [one_mul]

/-- Witness for C6: a 40-year-old 70 kg male with serum creatinine 1 gets
97.22. -/
theorem ccr_cockcroft_gault_witness : calculate_ccr 40 70 1 "male" = .success 97.22 := by
  have h := ccr_cockcroft_gault 40 70 1 "male" (Or.inl rfl) (by norm_num)
  rw [h]
  have he : (if ("male" : String) = "female" then (0.85 : ℚ) else 1) *
      ((140 - ((40 : Int) : ℚ)) * 70) / (72 * 1) = 875 / 9 := by
    rw [if_neg (by decide), one_mul]
    norm_num
  rw [he]
  have hfl : ⌊(875 / 9 : ℚ) * 100⌋ = 9722 := by
    rw [Int.floor_eq_iff]; norm_num
  rw [pyRound2_eq_down (875/9) 9722 hfl (by norm_num)]
  norm_num

/-- C7: the prescription listing is role-scoped: a teacher sees every
prescription, any other user sees exactly the prescriptions whose
prescriber_id is their own id. -/
theorem prescriptions_view_scoped (db : DB) (u : User) (p : Prescription) :
    (u.role = "teacher" → (p ∈ prescriptions_view db u ↔ p ∈ db.prescriptions))
    ∧ (u.role ≠ "teacher" →
        (p ∈ prescriptions_view db u ↔ p ∈ db.prescriptions ∧ p.prescriber_id = u.id)) := by
  constructor
  · intro h
    simp [prescriptions_view, h, List.mem_mergeSort]
  · intro h
    simp [prescriptions_view, if_neg h, List.mem_mergeSort, List.mem_filter]

/-- Witness for C7: student 1 sees their own prescription and not the one
authored by user 2. -/
theorem prescriptions_view_scoped_witness :
    rxMine ∈ prescriptions_view dbTwoRx studentW
    ∧ rxOther ∉ prescriptions_view dbTwoRx studentW := by
  have h1 := (prescriptions_view_scoped dbTwoRx studentW rxMine).2 (by decide)
  have h2 := (prescriptions_view_scoped dbTwoRx studentW rxOther).2 (by decide)
  refine ⟨h1.mpr (by decide), fun hm => ?_⟩
  have hc := h2.mp hm
  revert hc
  decide

/-- C8: a non-teacher invoking add_patient, add_medication or
approve_prescription is redirected to the dashboard (not given a 403) and
the database is unchanged. -/
theorem non_teacher_gate (db : DB) (u : User) (now : Int) (pf : PatientForm)
    (mf : MedicationForm) (rid : Int) (hu : u.role ≠ "teacher") :
    ((add_patient db u now pf).db = db ∧ (add_patient db u now pf).resp = .redirect "dashboard")
    ∧ ((add_medication db u mf).db = db ∧ (add_medication db u mf).resp = .redirect "dashboard")
    ∧ ((approve_prescription db u rid).db = db
        ∧ (approve_prescription db u rid).resp = .redirect "dashboard") := by
  unfold add_patient add_medication approve_prescription
  rw [if_pos hu, if_pos hu, if_pos hu]
  exact ⟨⟨rfl, rfl⟩, ⟨rfl, rfl⟩, ⟨rfl, rfl⟩⟩

/-- Witness for C8: a student is turned away from all three handlers. -/
theorem non_teacher_gate_witness :
    ((add_patient emptyDB studentW 0 pfW).db = emptyDB
      ∧ (add_patient emptyDB studentW 0 pfW).resp = .redirect "dashboard")
    ∧ ((add_medication emptyDB studentW mfW).db = emptyDB
      ∧ (add_medication emptyDB studentW mfW).resp = .redirect "dashboard")
    ∧ ((approve_prescription emptyDB studentW 1).db = emptyDB
      ∧ (approve_prescription emptyDB studentW 1).resp = .redirect "dashboard") :=
  non_teacher_gate emptyDB studentW 0 pfW mfW 1 (by decide)

/-- C9 counterexample: a medication whose quantity equals its reorder level
is flagged low-stock (listed and counted), although its quantity is not
strictly below the reorder level. -/
theorem low_stock_boundary_cex :
    medBoundary ∈ medications_low_stock dbBoundary
    ∧ ¬ medBoundary.quantity < medBoundary.reorder_level
    ∧ (dashboard_stats dbBoundary).low_stock = 1 := by decide

/-- C9 amended: a medication is flagged low-stock exactly when its quantity
is at most (not strictly below) its reorder level, and the dashboard
low-stock statistic counts exactly the flagged medications. -/
theorem low_stock_iff_le (db : DB) (m : Medication) :
    (m ∈ medications_low_stock db ↔ m ∈ db.medications ∧ m.quantity ≤ m.reorder_level)
    ∧ (dashboard_stats db).low_stock = (medications_low_stock db).length := by
  refine ⟨?_, rfl⟩
  simp [medications_low_stock, List.mem_filter]

/-- C10: the BMI category boundaries are half-open at the upper end: a BMI of
exactly 18.5 is "Normal weight", exactly 25 is "Overweight", and exactly 30
is "Obese". -/
theorem bmi_boundary_categories (w h : ℚ) (hh : h ≠ 0) :
    (w / ((h / 100) ^ 2) = 18.5 → (calculate_bmi w h).categoryOf = some "Normal weight")
  ∧ (w / ((h / 100) ^ 2) = 25 → (calculate_bmi w h).categoryOf = some "Overweight")
  ∧ (w / ((h / 100) ^ 2) = 30 → (calculate_bmi w h).categoryOf = some "Obese") := by
  refine ⟨fun hb => ?_, fun hb => ?_, fun hb => ?_⟩ <;>
    simp only [calculate_bmi, hb, if_neg hh] <;> norm_num [BmiResp.categoryOf]

/-- Witness for C10, with inputs whose BMI is exactly 18.5, 25 and 30. -/
theorem bmi_boundary_categories_witness :
    (calculate_bmi 74 200).categoryOf = some "Normal weight"
  ∧ (calculate_bmi 100 200).categoryOf = some "Overweight"
  ∧ (calculate_bmi 120 200).categoryOf = some "Obese" :=
  ⟨(bmi_boundary_categories 74 200 (by norm_num)).1 (by norm_num),
   (bmi_boundary_categories 100 200 (by norm_num)).2.1 (by norm_num),
   (bmi_boundary_categories 120 200 (by norm_num)).2.2 (by norm_num)⟩

end PMS
